import Mathlib

/-!
Shallow embedding of `src/ThemeEngine.js` from `typhonjs-theme-engine`.

The module is event-bus glue around an external PostCSS engine: `createTheme`
registers CSS pipeline targets, `cssAdd` (shared by `cssAppend` / `cssPrepend`)
appends or prepends CSS fragments after a template-rendering step and a bus
round-trip for theme content, `cssAppendAll` / `cssPrependAll` fan a batch of
`cssAdd` calls out, and `finalizeTheme` normalizes a theme-resource reply and
drains the engine.

JavaScript dynamic values are embedded as `JsValue`; the opaque PostCSS plugin
objects produced by the `cssnext`, `postcss-combine-duplicated-selectors` and
`cssnano` libraries get dedicated constructors so the default processor
pipeline of `createTheme` can be stated exactly.  Each operation returns a
`JsOutcome`: the ordered list of engine calls it issued, the ordered list of
bus events it emitted, and either its result or the JavaScript error thrown.
-/

set_option autoImplicit false

namespace ThemeEngine

/-- JavaScript values, restricted to the shapes this module manipulates.
`cssnextInstance o` is the value of the library call `cssnext(o)`,
`combineDupPlugin` the imported `postcss-combine-duplicated-selectors`
plugin function, and `cssnanoInstance o` the value of `cssnano(o)`. -/
inductive JsValue where
  | undefined
  | null
  | bool (b : Bool)
  | num (n : Int)
  | str (s : String)
  | arr (elems : List JsValue)
  | obj (fields : List (String × JsValue))
  | cssnextInstance (options : JsValue)
  | combineDupPlugin
  | cssnanoInstance (options : JsValue)

/-- JavaScript errors thrown by the module: `TypeError` or plain `Error`. -/
inductive JsError where
  | typeError (msg : String)
  | error (msg : String)

/-- `Array.isArray`. -/
def JsValue.isArrayB : JsValue → Bool
  | .arr _ => true
  | _ => false

/-- `typeof v === 'string'`. -/
def JsValue.isStringB : JsValue → Bool
  | .str _ => true
  | _ => false

/-- `typeof v === 'undefined'`. -/
def JsValue.isUndefB : JsValue → Bool
  | .undefined => true
  | _ => false

/-- `v === null`. -/
def JsValue.isNullB : JsValue → Bool
  | .null => true
  | _ => false

/-- `v === true` (strict equality against the boolean `true`). -/
def JsValue.isTrueB : JsValue → Bool
  | .bool true => true
  | _ => false

/-- The JavaScript `typeof` operator on the embedded values.  Note
`typeof null === 'object'` and arrays are objects; the plugin values are
functions. -/
def jsTypeof : JsValue → String
  | .undefined => "undefined"
  | .null => "object"
  | .bool _ => "boolean"
  | .num _ => "number"
  | .str _ => "string"
  | .arr _ => "object"
  | .obj _ => "object"
  | .cssnextInstance _ => "function"
  | .combineDupPlugin => "function"
  | .cssnanoInstance _ => "function"

/-- JavaScript truthiness of the embedded values. -/
def jsTruthy : JsValue → Bool
  | .undefined => false
  | .null => false
  | .bool b => b
  | .num n => decide (n ≠ 0)
  | .str s => decide (s ≠ "")
  | .arr _ => true
  | .obj _ => true
  | .cssnextInstance _ => true
  | .combineDupPlugin => true
  | .cssnanoInstance _ => true

/-- Property access `v.key`: on an object the last binding of the key wins
(JavaScript object literals let later duplicate keys shadow earlier ones);
on any other non-nullish value the result is `undefined`.  Access on `null`
or `undefined` is handled separately where the source can reach it. -/
def getField : JsValue → String → JsValue
  | .obj fields, key =>
      (((fields.reverse).find? (fun p => p.1 == key)).map Prod.snd).getD .undefined
  | _, _ => .undefined

/-- Destructuring-default semantics: a destructured binding falls back to its
default exactly when the property value is `undefined`. -/
def withDefault (v dflt : JsValue) : JsValue :=
  match v with
  | .undefined => dflt
  | w => w

/-- Destructuring a parameter with an `= {}` default: `undefined` selects the
default object, `null` throws a `TypeError`, and any other value is
destructured as-is (missing properties read as `undefined`). -/
def destructure : JsValue → Except JsError JsValue
  | .undefined => .ok (.obj [])
  | .null => .error (.typeError "Cannot destructure parameter as it is null.")
  | v => .ok v

/-- One call issued to the PostCSS engine instance (`this._postcss`). -/
inductive EngineCall where
  | create (name toName map processors silent : JsValue)
  | append (fragment : JsValue)
  | prepend (fragment : JsValue)
  | finalizeAll (silent : JsValue)

/-- One event emitted on the plugin event bus. -/
inductive BusEvent where
  | cssGet (payload : JsValue)
  | resourcesGet
  | logError (msg : String)

/-- The observable outcome of one operation: ordered engine calls, ordered bus
events, and the returned value or thrown error. -/
structure JsOutcome (α : Type) where
  engineCalls : List EngineCall
  busEvents : List BusEvent
  result : Except JsError α

/-- The default processor pipeline built by `createTheme` when `processors`
is `undefined` or `null` (source lines 61-73): a `cssnext` stage whose options
enable inline source maps exactly when `map === true`, followed, unless
`debug` is truthy, by the duplicate-selector combiner and a `cssnano` stage. -/
def defaultProcessors (map debug : JsValue) : JsValue :=
  let cssnextOptions :=
    if map.isTrueB then JsValue.obj [("sourceMap", .str "inline")] else JsValue.obj []
  let cssnanoOptions := JsValue.obj [("autoprefixer", .bool false)]
  if jsTruthy debug then
    .arr [.obj [("instance", .cssnextInstance cssnextOptions)]]
  else
    .arr [.obj [("instance", .cssnextInstance cssnextOptions)],
          .obj [("instance", .combineDupPlugin)],
          .obj [("instance", .cssnanoInstance cssnanoOptions)]]

/-- `createTheme(options)` (source lines 53-88).  Validates `files`, defaults
`processors` when unset or `null`, validates the resulting `processors` is an
array, then issues one engine `create` call per file target. -/
def createTheme (options : JsValue) : JsOutcome Unit :=
  match destructure options with
  | .error e => ⟨[], [], .error e⟩
  | .ok opts =>
    let files := withDefault (getField opts "files") (.str "styles.css")
    let map := withDefault (getField opts "map") (.bool true)
    let processors0 := getField opts "processors"
    let silent := withDefault (getField opts "silent") (.bool false)
    let debug := withDefault (getField opts "debug") (.bool false)
    if !files.isArrayB && !files.isStringB then
      ⟨[], [], .error (.typeError "'files' is not a 'string' or 'array'.")⟩
    else
      let processors :=
        if processors0.isUndefB || processors0.isNullB then defaultProcessors map debug
        else processors0
      if !processors.isArrayB then
        ⟨[], [], .error (.typeError "'processors' is not an 'array'.")⟩
      else
        match files with
        | .str s => ⟨[.create (.str s) (.str s) map processors silent], [], .ok ()⟩
        | .arr entries =>
            ⟨entries.map (fun entry => .create entry entry map processors silent), [], .ok ()⟩
        | _ => ⟨[], [], .ok ()⟩

/-- Builds the options object for `createTheme` with all five properties
present; passing `JsValue.undefined` for a property is observationally the same
as leaving it unset. -/
def mkCreateOpts (files map processors silent debug : JsValue) : JsValue :=
  .obj [("files", files), ("map", map), ("processors", processors),
        ("silent", silent), ("debug", debug)]

/-- Scans for the `\x7d` closing a template placeholder, returning the key
characters before it and the remaining characters after it. -/
def findBrace : List Char → Option (List Char × List Char)
  | [] => none
  | c :: rest =>
      if c = '}' then some ([], rest)
      else (findBrace rest).map (fun p => (c :: p.1, p.2))

/-- First substitution value bound to `key`, if any. -/
def lookupSub (key : String) : List (String × String) → Option String
  | [] => none
  | (k, v) :: rest => if k = key then some v else lookupSub key rest

/-- Replacement text for one placeholder: the bound substitution value, or the
placeholder itself left unchanged when `key` has no binding (no claim settled
here depends on the missing-key choice). -/
def substOf (key : List Char) (data : List (String × String)) : List Char :=
  match lookupSub (String.mk key) data with
  | some v => v.data
  | none => '$' :: '{' :: (key ++ ['}'])

/-- `true` exactly when the next two characters open a placeholder. -/
def placeholderHead (c : Char) (rest : List Char) : Bool :=
  c = '$' && rest.head? == some '{'

/-- Fuelled placeholder-replacement scan; every step consumes at least one
input character, so fuel equal to the input length always suffices. -/
def renderAux (data : List (String × String)) : Nat → List Char → List Char
  | 0, cs => cs
  | _ + 1, [] => []
  | fuel + 1, c :: rest =>
      if placeholderHead c rest then
        match findBrace rest.tail with
        | some (key, rest2) => substOf key data ++ renderAux data fuel rest2
        | none => c :: '{' :: renderAux data fuel rest.tail
      else c :: renderAux data fuel rest

/-- Modelled from the spec: the external template-substitution function
`render(template, data) -> string` (the `es6-template` dependency, not part
of this repository), which resolves `$\x7b key \x7d` placeholders in a file
path against the supplied substitution variables. -/
def es6Template (template : String) (data : List (String × String)) : String :=
  String.mk (renderAux data template.data.length template.data)

/-- Modelled from the spec: applying the template renderer to a non-string
value throws a `TypeError`, since the renderer's interface takes a string
(in JavaScript, string-method access on the value fails). -/
def es6TemplateJs (v : JsValue) (data : List (String × String)) :
    Except JsError String :=
  match v with
  | .str s => .ok (es6Template s data)
  | _ => .error (.typeError "es6Template expects a string template.")

/-- `true` exactly when the character stream contains a placeholder opener. -/
def hasPlaceholder : List Char → Bool
  | [] => false
  | c :: rest => placeholderHead c rest || hasPlaceholder rest

/-- JavaScript string conversion used when a substitution value is spliced
into a template (only string values appear in the claims settled here). -/
def jsToString : JsValue → String
  | .undefined => "undefined"
  | .null => "null"
  | .bool true => "true"
  | .bool false => "false"
  | .num n => toString n
  | .str s => s
  | .arr _ => ""
  | .obj _ => "[object Object]"
  | .cssnextInstance _ => ""
  | .combineDupPlugin => ""
  | .cssnanoInstance _ => ""

/-- The rest-pattern `...templateData` of `cssAdd`: every own property of the
destructured object except the four named bindings, in property order, with
values rendered to substitution strings. -/
def restTemplateData (data : JsValue) : List (String × String) :=
  match data with
  | .obj fields =>
      (fields.filter (fun p =>
        p.1 ≠ "name" && p.1 ≠ "dirName" && p.1 ≠ "filePath" && p.1 ≠ "silent")).map
        (fun p => (p.1, jsToString p.2))
  | _ => []

/-- The synchronous prefix of `cssAdd` up to its suspension point: the
validated action string, the `silent` binding, the structural engine call
issued immediately, and the content-lookup bus round-trip it starts. -/
structure SyncOk where
  actionStr : String
  silentVal : JsValue
  structural : EngineCall
  contentGet : BusEvent

/-- The engine call `cssAdd` uses for one forwarded fragment: `append` or
`prepend` according to the validated action. -/
def mkActionCall (actionStr : String) (fragment : JsValue) : EngineCall :=
  if actionStr = "append" then .append fragment else .prepend fragment

/-- Synchronous prefix of `cssAdd(action, data)` (source lines 106-119): the
parameter destructuring, the two action validations, the structural and
themed renderings of `filePath`, the immediate structural engine
append/prepend, and the `typhonjs:theme:css:get` round-trip request. -/
def cssAddSync (action0 dataArg : JsValue) : Except JsError SyncOk :=
  match destructure dataArg with
  | .error e => .error e
  | .ok data =>
    match withDefault action0 (.str "append") with
    | .str a =>
        if a ≠ "append" && a ≠ "prepend" then
          .error (.error "'action' is not 'append' or 'prepend'.")
        else
          let name := withDefault (getField data "name") (.str "styles.css")
          let dirName := getField data "dirName"
          let filePath := getField data "filePath"
          let silent := withDefault (getField data "silent") (.bool false)
          match es6TemplateJs filePath [] with
          | .error e => .error e
          | .ok structuralFilePath =>
            match es6TemplateJs filePath (restTemplateData data) with
            | .error e => .error e
            | .ok themeFilePath =>
              .ok ⟨a, silent,
                mkActionCall a (.obj [("name", name), ("dirName", dirName),
                  ("filePath", .str structuralFilePath), ("silent", silent)]),
                .cssGet (.obj [("name", name), ("filePath", .str themeFilePath),
                  ("silent", silent)])⟩
    | _ => .error (.typeError "'action' is not a 'string'.")

/-- Reply-handling phase of `cssAdd` (source lines 121-151) applied to the
`themeCSS` value the bus round-trip resolved with: an array reply is iterated
with one level of nesting flattened, forwarding each leaf to the engine; an
`undefined` reply does nothing; any other reply logs a diagnostic unless
`silent` is truthy. -/
def cssAddReplyCalls (actionStr : String) (silentVal themeCSS : JsValue) :
    List EngineCall × List BusEvent :=
  match themeCSS with
  | .arr entries =>
      (entries.flatMap (fun entry =>
         match entry with
         | .arr inner => inner.map (mkActionCall actionStr)
         | leaf => [mkActionCall actionStr leaf]), [])
  | other =>
      let themeCSSType := jsTypeof other
      ([], if themeCSSType ≠ "undefined" then
             (if jsTruthy silentVal then []
              else [.logError ("typhonjs-theme-engine - cssAdd error: 'themeCSS' is not an 'array'; found: '"
                     ++ themeCSSType ++ ".")])
           else [])

/-- `cssAdd(action, data)` (source lines 106-152) run to completion, with
`reply` the value the `typhonjs:theme:css:get` round-trip resolves with. -/
def cssAdd (action dataArg reply : JsValue) : JsOutcome Unit :=
  match cssAddSync action dataArg with
  | .error e => ⟨[], [], .error e⟩
  | .ok s =>
      let (replyCalls, replyEvents) := cssAddReplyCalls s.actionStr s.silentVal reply
      ⟨s.structural :: replyCalls, s.contentGet :: replyEvents, .ok ()⟩

/-- `cssAppendAll` / `cssPrependAll` (source lines 179-186 and 213-220): the
loop starts one `cssAdd` per entry; each async `cssAdd` runs its synchronous
prefix (validation, renderings, structural engine call, content round-trip)
during the loop, in entry order, and a synchronous throw leaves that entry's
promise rejected without undoing sibling work.  Reply handling for the
surviving entries then runs as each round-trip resolves (here: in entry
order, entry `i` resolving with `replies[i]`), and `Promise.all` rejects
with the first entry's error when one exists. -/
def cssAddAll (actionStr : String) (entries replies : List JsValue) :
    JsOutcome Unit :=
  let syncs := entries.map (fun entry => cssAddSync (.str actionStr) entry)
  let structuralCalls := syncs.flatMap (fun r =>
    match r with
    | .ok s => [s.structural]
    | .error _ => [])
  let getEvents := syncs.flatMap (fun r =>
    match r with
    | .ok s => [s.contentGet]
    | .error _ => [])
  let replyPhases := (List.zip syncs replies).map (fun p =>
    match p.1 with
    | .ok s => cssAddReplyCalls s.actionStr s.silentVal p.2
    | .error _ => ([], []))
  let replyCalls := replyPhases.flatMap Prod.fst
  let replyEvents := replyPhases.flatMap Prod.snd
  match syncs.findSome? (fun r =>
    match r with
    | .error e => some e
    | .ok _ => none) with
  | some e => ⟨structuralCalls ++ replyCalls, getEvents ++ replyEvents, .error e⟩
  | none => ⟨structuralCalls ++ replyCalls, getEvents ++ replyEvents, .ok ()⟩

/-- `cssAppendAll(data)` (source lines 179-186). -/
def cssAppendAll (entries replies : List JsValue) : JsOutcome Unit :=
  cssAddAll "append" entries replies

/-- `cssPrependAll(data)` (source lines 213-220). -/
def cssPrependAll (entries replies : List JsValue) : JsOutcome Unit :=
  cssAddAll "prepend" entries replies

/-- The guarded list read `Array.isArray(r.key) && r.key.length` used by
`finalizeTheme` before each of its entry loops: the entries of `r.key` when
that property is a non-empty array, and `[]` otherwise (an empty array also
yields `[]`, which is what the skipped loop produces). -/
def arrOfField (r : JsValue) (key : String) : List JsValue :=
  match getField r key with
  | .arr l => if 0 < l.length then l else []
  | _ => []

/-- Normalization of one resource bundle inside `finalizeTheme` (source lines
240-259 for a list element, 262-284 for a single-object reply): property
access on a nullish bundle throws; otherwise each non-empty `append` list
yields engine `append` calls entry-by-entry, each non-empty `prepend` list
yields `prepend` calls, and the `copy` list is surfaced for accumulation. -/
def bundleCalls (resource : JsValue) : Except JsError (List EngineCall × List JsValue) :=
  match resource with
  | .null => .error (.typeError "Cannot read properties of null (reading 'append').")
  | .undefined => .error (.typeError "Cannot read properties of undefined (reading 'append').")
  | r =>
      .ok ((arrOfField r "append").map EngineCall.append
            ++ (arrOfField r "prepend").map EngineCall.prepend,
           arrOfField r "copy")

/-- The loop of `finalizeTheme` over a resource-list reply: engine calls and
copy entries accumulate bundle-by-bundle; a throw mid-loop keeps the calls
already issued and abandons the rest. -/
def finalizeLoop : List JsValue → List EngineCall → List JsValue →
    List EngineCall × List JsValue × Option JsError
  | [], calls, copies => (calls, copies, none)
  | r :: rest, calls, copies =>
      match bundleCalls r with
      | .error e => (calls, copies, some e)
      | .ok (rcalls, rcopy) => finalizeLoop rest (calls ++ rcalls) (copies ++ rcopy)

/-- `finalizeTheme(options)` (source lines 229-289) with `themeResources` the
value the `typhonjs:theme:resources:get` round-trip resolves with and
`cssResult` the value the engine's `finalizeAll` returns.  An array reply is
normalized bundle-by-bundle; a non-array reply with `typeof === 'object'`
(which includes `null`) is normalized as a single bundle; any other reply is
ignored.  The engine is then drained and `\x7b css, copy \x7d` returned. -/
def finalizeTheme (options themeResources cssResult : JsValue) : JsOutcome JsValue :=
  match destructure options with
  | .error e => ⟨[], [], .error e⟩
  | .ok opts =>
    let silent := withDefault (getField opts "silent") (.bool false)
    match themeResources with
    | .arr resources =>
        match finalizeLoop resources [] [] with
        | (calls, _, some e) => ⟨calls, [.resourcesGet], .error e⟩
        | (calls, copies, none) =>
            ⟨calls ++ [.finalizeAll silent], [.resourcesGet],
             .ok (.obj [("css", cssResult), ("copy", .arr copies)])⟩
    | other =>
        if jsTypeof other = "object" then
          match bundleCalls other with
          | .error e => ⟨[], [.resourcesGet], .error e⟩
          | .ok (calls, copies) =>
              ⟨calls ++ [.finalizeAll silent], [.resourcesGet],
               .ok (.obj [("css", cssResult), ("copy", .arr copies)])⟩
        else
          ⟨[.finalizeAll silent], [.resourcesGet],
           .ok (.obj [("css", cssResult), ("copy", .arr [])])⟩

/-- Spec-side description of the reply-handling law of `cssAdd`: flatten
exactly one level of nesting, keeping list order.  Written from the spec's
words ("flatten one level and append/prepend every leaf entry in order") to
be compared with the code-side `cssAddReplyCalls`. -/
def flattenOnce (xs : List JsValue) : List JsValue :=
  xs.flatMap (fun x =>
    match x with
    | .arr inner => inner
    | leaf => [leaf])

/-- A well-formed fragment request over the given plain file path, used to
instantiate theorems with hypotheses at a concrete input. -/
def fragReq (path : String) : JsValue :=
  .obj [("filePath", .str path)]

/-- The synchronous prefix `cssAdd('append', fragReq path)` produces when
`path` contains no placeholders: defaults applied, both renderings equal to
`path`, the structural engine append, and the content round-trip request. -/
def fragSync (path : String) : SyncOk :=
  ⟨"append", .bool false,
   .append (.obj [("name", .str "styles.css"), ("dirName", .undefined),
     ("filePath", .str path), ("silent", .bool false)]),
   .cssGet (.obj [("name", .str "styles.css"), ("filePath", .str path),
     ("silent", .bool false)])⟩

/-! Helper lemmas. -/

lemma withDefault_of_not_undef (v dflt : JsValue) (h : v.isUndefB = false) :
    withDefault v dflt = v := by
  cases v <;> simp_all [withDefault, JsValue.isUndefB]

lemma renderAux_no_placeholder (data : List (String × String)) :
    ∀ (fuel : Nat) (cs : List Char), hasPlaceholder cs = false →
      renderAux data fuel cs = cs := by
  intro fuel
  induction fuel with
  | zero => intro cs _; rfl
  | succ n ih =>
      intro cs h
      cases cs with
      | nil => rfl
      | cons c rest =>
          rw [hasPlaceholder] at h
          rcases Bool.or_eq_false_iff.mp h with ⟨hhead, htail⟩
          simp [renderAux, hhead, ih rest htail]

lemma defaultProcessors_isArray (m d : JsValue) :
    (defaultProcessors m d).isArrayB = true := by
  cases hd : jsTruthy d <;> simp [defaultProcessors, hd, JsValue.isArrayB]

lemma destructure_mkCreateOpts (f m p s d : JsValue) :
    destructure (mkCreateOpts f m p s d) = .ok (mkCreateOpts f m p s d) := rfl

lemma getField_mkCreateOpts_files (f m p s d : JsValue) :
    getField (mkCreateOpts f m p s d) "files" = f := rfl

lemma getField_mkCreateOpts_map (f m p s d : JsValue) :
    getField (mkCreateOpts f m p s d) "map" = m := rfl

lemma getField_mkCreateOpts_processors (f m p s d : JsValue) :
    getField (mkCreateOpts f m p s d) "processors" = p := rfl

lemma getField_mkCreateOpts_silent (f m p s d : JsValue) :
    getField (mkCreateOpts f m p s d) "silent" = s := rfl

lemma getField_mkCreateOpts_debug (f m p s d : JsValue) :
    getField (mkCreateOpts f m p s d) "debug" = d := rfl

/-! Claim theorems. -/

/-- C1: with `processors` unset and `debug=false`, every engine `create` call
issued by `createTheme` carries exactly the three-stage default pipeline
(the `cssnext` CSS-transform step, then the duplicate-selector combiner, then
the `cssnano` minifier, in that order); with `debug=true` it carries exactly
the one-stage pipeline (the CSS-transform step only).  Stated for both the
single-file and the file-list shapes of `files`. -/
theorem createTheme_default_pipeline (map silent : JsValue) :
    (∀ m : JsValue, defaultProcessors m (.bool false)
        = .arr [.obj [("instance", .cssnextInstance
              (if m.isTrueB then JsValue.obj [("sourceMap", .str "inline")]
               else JsValue.obj []))],
            .obj [("instance", .combineDupPlugin)],
            .obj [("instance", .cssnanoInstance (.obj [("autoprefixer", .bool false)]))]]) ∧
    (∀ m : JsValue, defaultProcessors m (.bool true)
        = .arr [.obj [("instance", .cssnextInstance
              (if m.isTrueB then JsValue.obj [("sourceMap", .str "inline")]
               else JsValue.obj []))]]) ∧
    (∀ s : String,
      (createTheme (mkCreateOpts (.str s) map .undefined silent (.bool false))).engineCalls
        = [.create (.str s) (.str s) (withDefault map (.bool true))
            (defaultProcessors (withDefault map (.bool true)) (.bool false))
            (withDefault silent (.bool false))]) ∧
    (∀ files : List JsValue,
      (createTheme (mkCreateOpts (.arr files) map .undefined silent (.bool false))).engineCalls
        = files.map (fun entry => .create entry entry (withDefault map (.bool true))
            (defaultProcessors (withDefault map (.bool true)) (.bool false))
            (withDefault silent (.bool false)))) ∧
    (∀ s : String,
      (createTheme (mkCreateOpts (.str s) map .undefined silent (.bool true))).engineCalls
        = [.create (.str s) (.str s) (withDefault map (.bool true))
            (defaultProcessors (withDefault map (.bool true)) (.bool true))
            (withDefault silent (.bool false))]) ∧
    (∀ files : List JsValue,
      (createTheme (mkCreateOpts (.arr files) map .undefined silent (.bool true))).engineCalls
        = files.map (fun entry => .create entry entry (withDefault map (.bool true))
            (defaultProcessors (withDefault map (.bool true)) (.bool true))
            (withDefault silent (.bool false)))) :=
  ⟨fun _ => rfl, fun _ => rfl, fun _ => rfl, fun _ => rfl, fun _ => rfl, fun _ => rfl⟩

/-- C6: `createTheme` called with a `files` value that is neither a string
nor an array (a number, plain object, `null`, boolean, or any plugin value —
everything except the `undefined` that selects the documented default)
throws the `files` `TypeError` before issuing any engine call or bus
event. -/
theorem createTheme_invalid_files (files map processors silent debug : JsValue)
    (hu : files.isUndefB = false) (ha : files.isArrayB = false)
    (hs : files.isStringB = false) :
    createTheme (mkCreateOpts files map processors silent debug)
      = ⟨[], [], .error (.typeError "'files' is not a 'string' or 'array'.")⟩ := by
  cases files <;>
    first
      | rfl
      | simp_all [JsValue.isUndefB, JsValue.isArrayB, JsValue.isStringB]

/-- C6 witness: the number `5` is rejected as a `files` value. -/
theorem createTheme_invalid_files_witness :
    (JsValue.num 5).isUndefB = false ∧ (JsValue.num 5).isArrayB = false ∧
    (JsValue.num 5).isStringB = false ∧
    createTheme (mkCreateOpts (.num 5) (.bool true) .undefined (.bool false) (.bool false))
      = ⟨[], [], .error (.typeError "'files' is not a 'string' or 'array'.")⟩ :=
  ⟨rfl, rfl, rfl, createTheme_invalid_files _ _ _ _ _ rfl rfl rfl⟩

/-- C9: `finalizeTheme` with an `undefined` resources reply completes with an
empty copy list after draining the engine (no append or prepend calls), while
a `null` resources reply passes the `typeof === 'object'` shape check, has
its `append` property dereferenced, and therefore throws a `TypeError`
before the engine's `finalizeAll` is reached. -/
theorem finalizeTheme_nullish_reply (silent cssResult : JsValue) :
    finalizeTheme (.obj [("silent", silent)]) .undefined cssResult
      = ⟨[.finalizeAll (withDefault silent (.bool false))], [.resourcesGet],
         .ok (.obj [("css", cssResult), ("copy", .arr [])])⟩ ∧
    finalizeTheme (.obj [("silent", silent)]) .null cssResult
      = ⟨[], [.resourcesGet],
         .error (.typeError "Cannot read properties of null (reading 'append').")⟩ :=
  ⟨rfl, rfl⟩

/-- C8: the structural rendering `cssAdd` applies to a file path — template
substitution with no substitution variables — returns any path containing no
placeholders unchanged. -/
theorem es6Template_plain_path_id (p : String) (h : hasPlaceholder p.data = false) :
    es6Template p [] = p := by
  unfold es6Template
  rw [renderAux_no_placeholder _ _ _ h]

/-- C8 witness: a concrete plain path is rendered unchanged. -/
theorem es6Template_plain_path_id_witness :
    hasPlaceholder "dir/styles.css".data = false ∧
    es6Template "dir/styles.css" [] = "dir/styles.css" :=
  ⟨by decide, es6Template_plain_path_id "dir/styles.css" (by decide)⟩

/-- C10: `createTheme` treats `processors = null` exactly like an unset
`processors`: the whole outcome coincides with the `undefined` case, so the
default pipeline is built in its place and, whenever `files` is valid, the
call succeeds — the `null` never reaches the array-shape validation and
never raises the `processors` `TypeError`. -/
theorem createTheme_null_processors (files map silent debug : JsValue) :
    createTheme (mkCreateOpts files map .null silent debug)
      = createTheme (mkCreateOpts files map .undefined silent debug) ∧
    (files.isStringB = true ∨ files.isArrayB = true →
      (createTheme (mkCreateOpts files map .null silent debug)).result = .ok ()) := by
  constructor
  · rfl
  · intro h
    cases hd : jsTruthy (withDefault debug (.bool false)) <;>
      rcases h with h | h <;>
      cases files <;>
      simp_all [createTheme, mkCreateOpts, destructure, getField, withDefault,
        defaultProcessors, JsValue.isStringB, JsValue.isArrayB, JsValue.isUndefB,
        JsValue.isNullB]

/-- C10 witness: a `null` `processors` with a valid `files` string succeeds
and matches the unset-`processors` outcome. -/
theorem createTheme_null_processors_witness :
    (JsValue.str "styles.css").isStringB = true ∧
    createTheme (mkCreateOpts (.str "styles.css") (.bool true) .null (.bool false) (.bool false))
      = createTheme (mkCreateOpts (.str "styles.css") (.bool true) .undefined (.bool false) (.bool false)) ∧
    (createTheme (mkCreateOpts (.str "styles.css") (.bool true) .null (.bool false) (.bool false))).result
      = .ok () :=
  ⟨rfl,
   (createTheme_null_processors (.str "styles.css") (.bool true) (.bool false) (.bool false)).1,
   (createTheme_null_processors (.str "styles.css") (.bool true) (.bool false) (.bool false)).2
     (Or.inl rfl)⟩

/-- C4: a `cssAdd` call whose `action` is an actual value (not the
`undefined` that selects the parameter default) different from the strings
`append` and `prepend` throws synchronously — a `TypeError` for a non-string
action, the invalid-operation `Error` for any other string — and issues no
engine call and no bus event. -/
theorem cssAdd_invalid_action (action dataArg reply : JsValue)
    (hd : dataArg.isNullB = false) (hu : action.isUndefB = false)
    (ha : ∀ s, action = .str s → s ≠ "append" ∧ s ≠ "prepend") :
    (cssAdd action dataArg reply).engineCalls = [] ∧
    (cssAdd action dataArg reply).busEvents = [] ∧
    ((cssAdd action dataArg reply).result
        = .error (.typeError "'action' is not a 'string'.") ∨
     (cssAdd action dataArg reply).result
        = .error (.error "'action' is not 'append' or 'prepend'.")) := by
  obtain ⟨d, hdes⟩ : ∃ d, destructure dataArg = .ok d := by
    cases dataArg <;> simp_all [destructure, JsValue.isNullB]
  cases action with
  | undefined => simp [JsValue.isUndefB] at hu
  | str a =>
      obtain ⟨h1, h2⟩ := ha a rfl
      simp [cssAdd, cssAddSync, hdes, withDefault, h1, h2]
  | null => simp [cssAdd, cssAddSync, hdes, withDefault]
  | bool b => simp [cssAdd, cssAddSync, hdes, withDefault]
  | num n => simp [cssAdd, cssAddSync, hdes, withDefault]
  | arr elems => simp [cssAdd, cssAddSync, hdes, withDefault]
  | obj fields => simp [cssAdd, cssAddSync, hdes, withDefault]
  | cssnextInstance o => simp [cssAdd, cssAddSync, hdes, withDefault]
  | combineDupPlugin => simp [cssAdd, cssAddSync, hdes, withDefault]
  | cssnanoInstance o => simp [cssAdd, cssAddSync, hdes, withDefault]

/-- C4 witness: the action string `replace` is rejected with no side
effect. -/
theorem cssAdd_invalid_action_witness :
    (JsValue.obj []).isNullB = false ∧ (JsValue.str "replace").isUndefB = false ∧
    ((cssAdd (.str "replace") (.obj []) .undefined).engineCalls = [] ∧
     (cssAdd (.str "replace") (.obj []) .undefined).busEvents = [] ∧
     ((cssAdd (.str "replace") (.obj []) .undefined).result
         = .error (.typeError "'action' is not a 'string'.") ∨
      (cssAdd (.str "replace") (.obj []) .undefined).result
         = .error (.error "'action' is not 'append' or 'prepend'."))) :=
  ⟨rfl, rfl,
   cssAdd_invalid_action (.str "replace") (.obj []) .undefined rfl rfl
     (by
       intro s h
       injection h with h
       subst h
       exact ⟨by decide, by decide⟩)⟩

/-- The reply-handling phase of `cssAdd` on a list reply realizes the
spec-side flatten-one-level law. -/
lemma cssAddReplyCalls_arr (a : String) (sil : JsValue) (xs : List JsValue) :
    cssAddReplyCalls a sil (.arr xs)
      = ((flattenOnce xs).map (mkActionCall a), []) := by
  induction xs with
  | nil => rfl
  | cons x rest ih =>
      cases x <;> simp_all [cssAddReplyCalls, flattenOnce]

/-- C2: when the fragment-content round-trip of `cssAdd` resolves with a
list, the engine receives — after the structural call of the synchronous
prefix — one append (resp. prepend, matching the validated action) call per
leaf entry, flattening exactly one level of nesting, in list order. -/
theorem cssAdd_flatten_one_level (action dataArg : JsValue) (xs : List JsValue)
    (s : SyncOk) (hs : cssAddSync action dataArg = .ok s) :
    (cssAdd action dataArg (.arr xs)).result = .ok () ∧
    (cssAdd action dataArg (.arr xs)).engineCalls
      = s.structural :: (flattenOnce xs).map (mkActionCall s.actionStr) := by
  simp [cssAdd, hs, cssAddReplyCalls_arr]

/-- C2 witness: the reply `[[A,B],C]` yields engine appends for `A`, `B`,
`C` in that order after the structural call. -/
theorem cssAdd_flatten_one_level_witness :
    cssAddSync (.str "append") (fragReq "x.css") = .ok (fragSync "x.css") ∧
    (cssAdd (.str "append") (fragReq "x.css")
        (.arr [.arr [.str "A", .str "B"], .str "C"])).result = .ok () ∧
    (cssAdd (.str "append") (fragReq "x.css")
        (.arr [.arr [.str "A", .str "B"], .str "C"])).engineCalls
      = (fragSync "x.css").structural ::
        [.append (.str "A"), .append (.str "B"), .append (.str "C")] :=
  ⟨rfl,
   (cssAdd_flatten_one_level (.str "append") (fragReq "x.css")
     [.arr [.str "A", .str "B"], .str "C"] (fragSync "x.css") rfl).1,
   (cssAdd_flatten_one_level (.str "append") (fragReq "x.css")
     [.arr [.str "A", .str "B"], .str "C"] (fragSync "x.css") rfl).2⟩

/-- C5: a `cssAdd` whose content round-trip resolves with `undefined`
completes without error and with no engine call beyond the structural one
and no diagnostic; a defined non-list reply also completes without error and
without further engine calls, emitting the non-fatal diagnostic on the bus
exactly when `silent` is not truthy. -/
theorem cssAdd_reply_not_list (action dataArg reply : JsValue) (s : SyncOk)
    (hs : cssAddSync action dataArg = .ok s) (hr : reply.isArrayB = false) :
    (cssAdd action dataArg reply).result = .ok () ∧
    (cssAdd action dataArg reply).engineCalls = [s.structural] ∧
    (reply = .undefined → (cssAdd action dataArg reply).busEvents = [s.contentGet]) ∧
    (reply ≠ .undefined →
      (cssAdd action dataArg reply).busEvents
        = s.contentGet ::
          (if jsTruthy s.silentVal then []
           else [.logError ("typhonjs-theme-engine - cssAdd error: 'themeCSS' is not an 'array'; found: '"
                  ++ jsTypeof reply ++ ".")])) := by
  cases reply <;> simp_all [cssAdd, cssAddReplyCalls, jsTypeof, JsValue.isArrayB]

/-- C5 witness: an `undefined` reply and a numeric reply, the latter with
`silent` false, behave as stated. -/
theorem cssAdd_reply_not_list_witness :
    cssAddSync (.str "append") (fragReq "y.css") = .ok (fragSync "y.css") ∧
    (JsValue.num 3).isArrayB = false ∧
    (cssAdd (.str "append") (fragReq "y.css") .undefined).busEvents
      = [(fragSync "y.css").contentGet] ∧
    (cssAdd (.str "append") (fragReq "y.css") (.num 3)).result = .ok () ∧
    (cssAdd (.str "append") (fragReq "y.css") (.num 3)).engineCalls
      = [(fragSync "y.css").structural] ∧
    (cssAdd (.str "append") (fragReq "y.css") (.num 3)).busEvents
      = [(fragSync "y.css").contentGet,
         .logError "typhonjs-theme-engine - cssAdd error: 'themeCSS' is not an 'array'; found: 'number."] :=
  ⟨rfl, rfl,
   (cssAdd_reply_not_list (.str "append") (fragReq "y.css") .undefined
     (fragSync "y.css") rfl rfl).2.2.1 rfl,
   (cssAdd_reply_not_list (.str "append") (fragReq "y.css") (.num 3)
     (fragSync "y.css") rfl rfl).1,
   (cssAdd_reply_not_list (.str "append") (fragReq "y.css") (.num 3)
     (fragSync "y.css") rfl rfl).2.1,
   (cssAdd_reply_not_list (.str "append") (fragReq "y.css") (.num 3)
     (fragSync "y.css") rfl rfl).2.2.2 (fun h => JsValue.noConfusion h)⟩

/-- A non-nullish bundle is normalized into its append calls, prepend calls
and copy entries without throwing. -/
lemma bundleCalls_not_nullish (r : JsValue) (h1 : r.isNullB = false)
    (h2 : r.isUndefB = false) :
    bundleCalls r
      = .ok ((arrOfField r "append").map EngineCall.append
              ++ (arrOfField r "prepend").map EngineCall.prepend,
             arrOfField r "copy") := by
  cases r <;> first | rfl | simp_all [JsValue.isNullB, JsValue.isUndefB]

/-- The bundle loop of `finalizeTheme` over non-nullish bundles accumulates
every bundle's calls and copy entries in order and reports no error. -/
lemma finalizeLoop_not_nullish (resources : List JsValue) :
    ∀ (acc : List EngineCall) (cps : List JsValue),
      (∀ r ∈ resources, r.isNullB = false ∧ r.isUndefB = false) →
      finalizeLoop resources acc cps
        = (acc ++ resources.flatMap (fun r =>
              (arrOfField r "append").map EngineCall.append
              ++ (arrOfField r "prepend").map EngineCall.prepend),
           cps ++ resources.flatMap (fun r => arrOfField r "copy"), none) := by
  induction resources with
  | nil => intro acc cps _; simp [finalizeLoop]
  | cons r rest ih =>
      intro acc cps h
      have hr := h r (List.mem_cons_self r rest)
      have hb := bundleCalls_not_nullish r hr.1 hr.2
      simp [finalizeLoop, hb, ih _ _ (fun r' hr' => h r' (List.mem_cons_of_mem r hr'))]

/-- C3: `finalizeTheme` given a list of non-nullish resource bundles issues,
bundle by bundle in list order, one engine append call per entry of each
bundle's `append` list and one prepend call per entry of each `prepend`
list (within-bundle order preserved), returns a copy list equal to the
concatenation of all bundles' `copy` lists in that same order, and drains
the engine afterwards. -/
theorem finalizeTheme_resource_list (silent cssResult : JsValue)
    (resources : List JsValue)
    (h : ∀ r ∈ resources, r.isNullB = false ∧ r.isUndefB = false) :
    finalizeTheme (.obj [("silent", silent)]) (.arr resources) cssResult
      = ⟨resources.flatMap (fun r =>
            (arrOfField r "append").map EngineCall.append
            ++ (arrOfField r "prepend").map EngineCall.prepend)
          ++ [.finalizeAll (withDefault silent (.bool false))],
         [.resourcesGet],
         .ok (.obj [("css", cssResult),
           ("copy", .arr (resources.flatMap (fun r => arrOfField r "copy")))])⟩ := by
  have hloop := finalizeLoop_not_nullish resources [] [] h
  simp only [List.nil_append] at hloop
  simp [finalizeTheme, destructure, getField, hloop]

/-- C3 witness: the two-bundle reply from the claim yields appends for `a1`
then `a2` and the copy list `[c1, c2]`. -/
theorem finalizeTheme_resource_list_witness :
    finalizeTheme (.obj [("silent", .bool false)])
        (.arr [.obj [("append", .arr [.str "a1"]), ("copy", .arr [.str "c1"])],
               .obj [("append", .arr [.str "a2"]), ("copy", .arr [.str "c2"])]])
        (.str "css")
      = ⟨[.append (.str "a1"), .append (.str "a2"), .finalizeAll (.bool false)],
         [.resourcesGet],
         .ok (.obj [("css", .str "css"),
           ("copy", .arr [.str "c1", .str "c2"])])⟩ :=
  finalizeTheme_resource_list (.bool false) (.str "css") _
    (by
      intro r hr
      simp only [List.mem_cons, List.not_mem_nil, or_false] at hr
      rcases hr with rfl | rfl <;> exact ⟨rfl, rfl⟩)

/-- C7: in a `cssAppendAll` batch of three fragment requests whose second
fails its synchronous validation, the engine still receives the structural
append calls of the first and third entries — they are the first two engine
calls of the batch — while the overall batch operation rejects with the
second entry's error. -/
theorem cssAppendAll_sibling_calls (e1 e2 e3 : JsValue) (replies : List JsValue)
    (s1 s3 : SyncOk) (err : JsError)
    (h1 : cssAddSync (.str "append") e1 = .ok s1)
    (h2 : cssAddSync (.str "append") e2 = .error err)
    (h3 : cssAddSync (.str "append") e3 = .ok s3) :
    (cssAppendAll [e1, e2, e3] replies).result = .error err ∧
    (cssAppendAll [e1, e2, e3] replies).engineCalls.take 2
        = [s1.structural, s3.structural] := by
  constructor
  · simp [cssAppendAll, cssAddAll, h1, h2, h3]
  · simp [cssAppendAll, cssAddAll, h1, h2, h3]

/-- C7 witness: a batch whose second request is `null` (its parameter
destructuring throws) still issues the structural appends of the first and
third requests, and the batch rejects. -/
theorem cssAppendAll_sibling_calls_witness :
    cssAddSync (.str "append") (fragReq "a.css") = .ok (fragSync "a.css") ∧
    cssAddSync (.str "append") .null
      = .error (.typeError "Cannot destructure parameter as it is null.") ∧
    cssAddSync (.str "append") (fragReq "c.css") = .ok (fragSync "c.css") ∧
    ((cssAppendAll [fragReq "a.css", .null, fragReq "c.css"]
        [.undefined, .undefined, .undefined]).result
      = .error (.typeError "Cannot destructure parameter as it is null.") ∧
    (cssAppendAll [fragReq "a.css", .null, fragReq "c.css"]
        [.undefined, .undefined, .undefined]).engineCalls.take 2
      = [(fragSync "a.css").structural, (fragSync "c.css").structural]) :=
  ⟨rfl, rfl, rfl,
   cssAppendAll_sibling_calls (fragReq "a.css") .null (fragReq "c.css")
     [.undefined, .undefined, .undefined] (fragSync "a.css") (fragSync "c.css")
     (.typeError "Cannot destructure parameter as it is null.") rfl rfl rfl⟩

end ThemeEngine
